import Mathlib

/-!
Verification development for the inx-builder repository
(src/inx_builder/config.py, builder.py): a shallow embedding of the
configuration model, validation, JSON (de)serialization, template-set
resolution, the template-expansion file walk, name-normalization filters,
and the parameter XML emitter, together with theorems settling the spec
claims.

Modelling conventions:
- Python strings are Lean `String`; the Python string methods used by the
  source (`lower`, `replace`, `split`, `title`, suffix tests) are embedded
  as kernel-computable functions over the underlying character lists,
  faithful to CPython semantics on the ASCII inputs this program handles.
- `Optional[...]` fields are `Option ...`; a Python `None` value is `none`.
- Python numeric bounds (`min`/`max`, declared `Optional[float]`) are
  modelled as `Option Int`: every claim uses integral bounds, and the only
  operation performed on them is an order comparison.
- A Python `raise ValueError(msg)` is `Except.error msg`; a function that
  can raise `KeyError` returns `Option` (with `none` for the raise).
- JSON-representable Python values (`Any`) are the inductive `Json` below;
  `json.dump` followed by `json.load` is the identity on such values, so a
  persisted file is modelled at the JSON-value level.
-/

/-- Decidable equality for `Except`, so concrete validation results can be
settled by `decide`. -/
instance {ε α : Type} [DecidableEq ε] [DecidableEq α] : DecidableEq (Except ε α) :=
  fun a b =>
    match a, b with
    | .ok x, .ok y =>
      match decEq x y with
      | isTrue h => isTrue (congrArg Except.ok h)
      | isFalse h => isFalse (fun hh => h (Except.ok.inj hh))
    | .error e, .error f =>
      match decEq e f with
      | isTrue h => isTrue (congrArg Except.error h)
      | isFalse h => isFalse (fun hh => h (Except.error.inj hh))
    | .ok _, .error _ => isFalse (fun hh => Except.noConfusion hh)
    | .error _, .ok _ => isFalse (fun hh => Except.noConfusion hh)

/-- Python `str.lower()` (ASCII). -/
def pyLower (s : String) : String := String.mk (s.data.map Char.toLower)

/-- Replacement loop for `str.replace`: scan left to right, replacing
non-overlapping occurrences of `old` (assumed non-empty, as at every call
site in the source). The `fuel` argument is only a structural-recursion
bound; `fuel = length of the scanned list` never runs out because every
step consumes at least one character. -/
def pyReplaceAux (old new : List Char) : Nat → List Char → List Char
  | _, [] => []
  | 0, l => l
  | fuel + 1, c :: cs =>
    if old.isPrefixOf (c :: cs) then
      new ++ pyReplaceAux old new fuel (List.drop (old.length - 1) cs)
    else
      c :: pyReplaceAux old new fuel cs

/-- Python `s.replace(old, new)` for non-empty `old`. -/
def pyReplace (s old new : String) : String :=
  String.mk (pyReplaceAux old.data new.data s.data.length s.data)

/-- JSON values, the image of Python objects under `json.dump`/`json.load`.
Objects are ordered key/value lists, matching Python dict insertion order. -/
inductive Json where
  | null : Json
  | bool (b : Bool) : Json
  | num (n : Int) : Json
  | str (s : String) : Json
  | arr (xs : List Json) : Json
  | obj (fields : List (String × Json)) : Json

/-- `@dataclass Parameter` from config.py, fields in declaration order.
`pages` is a list of `Dict[str, str]`, modelled as association lists. -/
structure Parameter where
  name : String
  type : String
  default : Json := .null
  gui_text : Option String := none
  gui_description : Option String := none
  min : Option Int := none
  max : Option Int := none
  options : List String := []
  pages : List (List (String × String)) := []
  appearance : String := "full"

/-- The closed enum of recognized parameter types (config.py line 28). -/
def paramTypes : List String :=
  ["int", "float", "string", "boolean", "optiongroup", "notebook"]

/-- `Parameter.validate` from config.py: raises `ValueError` on the first
violated check, in source order; falls through to a normal return (`ok`). -/
def Parameter.validate (p : Parameter) : Except String Unit :=
  if p.type ∉ paramTypes then
    .error ("Invalid parameter type: " ++ p.type)
  else if p.type = "optiongroup" ∧ p.options = [] then
    .error "Optiongroup parameters require options"
  else if p.type = "notebook" ∧ p.pages = [] then
    .error "Notebook parameters require pages"
  else
    match p.min, p.max with
    | some a, some b =>
      if a > b then
        .error ("min (" ++ toString a ++ ") cannot be greater than max ("
          ++ toString b ++ ")")
      else .ok ()
    | _, _ => .ok ()

/-- `@dataclass ExtensionConfig` from config.py, fields in declaration order. -/
structure ExtensionConfig where
  name : String
  type : String := "effect"
  id : Option String := none
  author : String := "Anonymous"
  email : Option String := none
  description : String := "Inkscape Extension"
  version : String := "1.0.0"
  license : String := "GPL-2.0-or-later"
  requires : List String := []
  parameters : List Parameter := []

/-- The derived identifier of `ExtensionConfig.__post_init__`:
`clean_name = name.lower().replace(' ', '_').replace('-', '_')` and
`id = f"org.inkscape.{type}.{clean_name}"`. -/
def deriveId (name type : String) : String :=
  "org.inkscape." ++ type ++ "." ++ pyReplace (pyReplace (pyLower name) " " "_") "-" "_"

/-- Constructing an `ExtensionConfig` runs `__post_init__`: when `id` is
falsy (`None` or the empty string) it is replaced by the derived id.
Arguments are the dataclass fields in declaration order. -/
def mkExtensionConfig (name type : String) (id : Option String) (author : String)
    (email : Option String) (description version license : String)
    (requires : List String) (parameters : List Parameter) : ExtensionConfig :=
  { name := name, type := type,
    id := if id.getD "" = "" then some (deriveId name type) else id,
    author := author, email := email, description := description,
    version := version, license := license, requires := requires,
    parameters := parameters }

/-- The closed enum of extension types (config.py line 81). -/
def extensionTypes : List String := ["effect", "input", "output", "render", "custom"]

/-- The `for param in self.parameters: param.validate()` loop of
`ExtensionConfig.validate`: the first raising parameter aborts the loop. -/
def validateParams : List Parameter → Except String Unit
  | [] => .ok ()
  | p :: ps =>
    match Parameter.validate p with
    | .error e => .error e
    | .ok () => validateParams ps

/-- `ExtensionConfig.validate` from config.py: empty name first, then the
type enum, then each parameter in list order. -/
def ExtensionConfig.validate (c : ExtensionConfig) : Except String Unit :=
  if c.name = "" then .error "Extension name is required"
  else if c.type ∉ extensionTypes then
    .error ("Invalid extension type: " ++ c.type)
  else validateParams c.parameters

/-- Split a character list at every occurrence of `sep`, Python
`str.split(sep)` semantics (`"".split(sep) == [""]`, empty pieces kept). -/
def splitChar (sep : Char) : List Char → List (List Char)
  | [] => [[]]
  | c :: cs =>
    match splitChar sep cs with
    | [] => [[]]
    | g :: gs => if c = sep then [] :: g :: gs else (c :: g) :: gs

/-- Python `s.split(sep)` for a one-character separator. -/
def strSplitOn (s : String) (sep : Char) : List String :=
  (splitChar sep s.data).map String.mk

/-- `pathlib.PurePath.suffix`: the final "." extension of the last path
component; empty when there is no dot, when the only dot is leading (a
hidden file), or when the name ends in a dot. -/
def pathSuffix (p : String) : String :=
  let nm := (strSplitOn p '/').getLastD ""
  match strSplitOn nm '.' with
  | [] => ""
  | [_] => ""
  | first :: rest =>
    let last := rest.getLastD ""
    if last = "" then ""
    else if first = "" ∧ rest.length = 1 then ""
    else "." ++ last

/-- Encoding of an `Optional[str]` attribute under `asdict` + `json.dump`. -/
def optStrJson : Option String → Json
  | none => .null
  | some s => .str s

/-- Encoding of an optional numeric attribute under `asdict` + `json.dump`. -/
def optNumJson : Option Int → Json
  | none => .null
  | some n => .num n

/-- Encoding of one notebook page (`Dict[str, str]`) as a JSON object. -/
def pageToJson (pg : List (String × String)) : Json :=
  .obj (pg.map (fun kv => (kv.1, Json.str kv.2)))

/-- `dataclasses.asdict` on a `Parameter`, keys in field order, as the JSON
record `json.dump` writes. -/
def Parameter.to_dict (p : Parameter) : Json :=
  .obj [("name", .str p.name), ("type", .str p.type), ("default", p.default),
        ("gui_text", optStrJson p.gui_text),
        ("gui_description", optStrJson p.gui_description),
        ("min", optNumJson p.min), ("max", optNumJson p.max),
        ("options", .arr (p.options.map Json.str)),
        ("pages", .arr (p.pages.map pageToJson)),
        ("appearance", .str p.appearance)]

/-- `ExtensionConfig.to_dict` from config.py: `asdict(self)` with the
parameters list converted entry-wise (the explicit reconversion in the
source is a no-op on top of `asdict`). -/
def ExtensionConfig.to_dict (c : ExtensionConfig) : Json :=
  .obj [("name", .str c.name), ("type", .str c.type), ("id", optStrJson c.id),
        ("author", .str c.author), ("email", optStrJson c.email),
        ("description", .str c.description), ("version", .str c.version),
        ("license", .str c.license),
        ("requires", .arr (c.requires.map Json.str)),
        ("parameters", .arr (c.parameters.map Parameter.to_dict))]

/-- `save_config` from config.py: `json.dump(config.to_dict(), f, indent=2)`,
modelled as the JSON value written to the file (`json.dump` then `json.load`
is the identity on such values, indentation being whitespace only). -/
def save_config (c : ExtensionConfig) : Json := c.to_dict

/-- Decode a JSON string; every non-string shape is rejected. -/
def decodeStr : Json → Except String String
  | .str s => .ok s
  | _ => .error "expected a string"

/-- Decode a JSON value standing for an `Optional[str]` field. -/
def decodeOptStr : Json → Except String (Option String)
  | .null => .ok none
  | .str s => .ok (some s)
  | _ => .error "expected a string or null"

/-- Decode a JSON value standing for an optional numeric field. -/
def decodeOptNum : Json → Except String (Option Int)
  | .null => .ok none
  | .num n => .ok (some n)
  | _ => .error "expected a number or null"

/-- Decode a list of JSON strings, left to right, first failure aborting. -/
def decodeStrs : List Json → Except String (List String)
  | [] => .ok []
  | j :: js =>
    match decodeStr j with
    | .error e => .error e
    | .ok s =>
      match decodeStrs js with
      | .error e => .error e
      | .ok ss => .ok (s :: ss)

/-- Decode the fields of one notebook-page object into a `Dict[str, str]`. -/
def decodePageFields : List (String × Json) → Except String (List (String × String))
  | [] => .ok []
  | (k, v) :: rest =>
    match decodeStr v with
    | .error e => .error e
    | .ok s =>
      match decodePageFields rest with
      | .error e => .error e
      | .ok ss => .ok ((k, s) :: ss)

/-- Decode one notebook page. -/
def decodePage : Json → Except String (List (String × String))
  | .obj fs => decodePageFields fs
  | _ => .error "expected an object"

/-- Decode a list of notebook pages. -/
def decodePages : List Json → Except String (List (List (String × String)))
  | [] => .ok []
  | j :: js =>
    match decodePage j with
    | .error e => .error e
    | .ok pg =>
      match decodePages js with
      | .error e => .error e
      | .ok pgs => .ok (pg :: pgs)

/-- Required string field of a record: `Parameter(**p)` raises `TypeError`
when a field without a dataclass default is missing. -/
def reqStrField (fs : List (String × Json)) (k : String) : Except String String :=
  match List.lookup k fs with
  | some v => decodeStr v
  | none => .error ("missing required field: " ++ k)

/-- String field with a dataclass default for a missing key. -/
def strFieldD (fs : List (String × Json)) (k : String) (d : String) : Except String String :=
  match List.lookup k fs with
  | some v => decodeStr v
  | none => .ok d

/-- `Optional[str]` field, defaulting to `None` when the key is missing. -/
def optStrField (fs : List (String × Json)) (k : String) : Except String (Option String) :=
  match List.lookup k fs with
  | some v => decodeOptStr v
  | none => .ok none

/-- Optional numeric field, defaulting to `None` when the key is missing. -/
def optNumField (fs : List (String × Json)) (k : String) : Except String (Option Int) :=
  match List.lookup k fs with
  | some v => decodeOptNum v
  | none => .ok none

/-- `Any`-typed field (`default`), kept as the raw JSON value; a missing
key yields the dataclass default `None`. -/
def jsonField (fs : List (String × Json)) (k : String) : Json :=
  (List.lookup k fs).getD .null

/-- `List[str]` field, defaulting to `[]` when the key is missing. -/
def strListField (fs : List (String × Json)) (k : String) : Except String (List String) :=
  match List.lookup k fs with
  | some (.arr xs) => decodeStrs xs
  | some _ => .error ("expected a list for field: " ++ k)
  | none => .ok []

/-- Notebook-pages field, defaulting to `[]` when the key is missing. -/
def pagesField (fs : List (String × Json)) (k : String) :
    Except String (List (List (String × String))) :=
  match List.lookup k fs with
  | some (.arr xs) => decodePages xs
  | some _ => .error ("expected a list for field: pages")
  | none => .ok []

/-- `Parameter(**p)` on a decoded JSON record: required fields `name` and
`type`, dataclass defaults for the rest. (The dataclass performs no runtime
type check; this decoder rejects shapes that the claims never produce.) -/
def Parameter.from_dict (j : Json) : Except String Parameter :=
  match j with
  | .obj fs => do
    let nm ← reqStrField fs "name"
    let tp ← reqStrField fs "type"
    let gt ← optStrField fs "gui_text"
    let gd ← optStrField fs "gui_description"
    let mn ← optNumField fs "min"
    let mx ← optNumField fs "max"
    let ops ← strListField fs "options"
    let pgs ← pagesField fs "pages"
    let ap ← strFieldD fs "appearance" "full"
    .ok { name := nm, type := tp, default := jsonField fs "default",
          gui_text := gt, gui_description := gd, min := mn, max := mx,
          options := ops, pages := pgs, appearance := ap }
  | _ => .error "parameter record must be an object"

/-- The `[Parameter(**p) for p in params_data]` comprehension: decode each
parameter record in order, the first failure propagating. -/
def decodeParams : List Json → Except String (List Parameter)
  | [] => .ok []
  | j :: js =>
    match Parameter.from_dict j with
    | .error e => .error e
    | .ok p =>
      match decodeParams js with
      | .error e => .error e
      | .ok ps => .ok (p :: ps)

/-- `ExtensionConfig.from_dict`: pop `parameters` (default `[]`), build the
config through the constructor (running `__post_init__`), then attach the
reconstructed parameters — equivalent to passing them directly, since
`__post_init__` never reads them. -/
def ExtensionConfig.from_dict (j : Json) : Except String ExtensionConfig :=
  match j with
  | .obj fs => do
    let params ← (match List.lookup "parameters" fs with
      | some (.arr xs) => decodeParams xs
      | some _ => .error "expected a list for field: parameters"
      | none => .ok [])
    let nm ← reqStrField fs "name"
    let tp ← strFieldD fs "type" "effect"
    let idv ← optStrField fs "id"
    let au ← strFieldD fs "author" "Anonymous"
    let em ← optStrField fs "email"
    let de ← strFieldD fs "description" "Inkscape Extension"
    let ve ← strFieldD fs "version" "1.0.0"
    let li ← strFieldD fs "license" "GPL-2.0-or-later"
    let rq ← strListField fs "requires"
    .ok (mkExtensionConfig nm tp idv au em de ve li rq params)
  | _ => .error "config record must be an object"

/-- `load_config` from config.py: missing file, then dispatch on the
lower-cased path suffix (`.json` via the JSON decoder, `.yaml`/`.yml` via
`yaml.safe_load`, identical at the value level), else unsupported format.
The filesystem is an explicit map from path to stored JSON value. -/
def load_config (fs : String → Option Json) (filepath : String) :
    Except String ExtensionConfig :=
  match fs filepath with
  | none => .error ("Config file not found: " ++ filepath)
  | some j =>
    if pyLower (pathSuffix filepath) = ".json" then ExtensionConfig.from_dict j
    else if pyLower (pathSuffix filepath) = ".yaml" ∨ pyLower (pathSuffix filepath) = ".yml" then
      ExtensionConfig.from_dict j
    else .error ("Unsupported config file format: " ++ pathSuffix filepath)

/-- Whether `sub` occurs as a contiguous substring of `s`. -/
def strContains (s sub : String) : Bool :=
  (List.range (s.data.length + 1)).any (fun i => sub.data.isPrefixOf (s.data.drop i))

/-- Python `str.title()` (ASCII): a letter is upper-cased when the previous
character is not a letter and lower-cased otherwise; non-letters pass
through and restart a word. -/
def pyTitleAux : Bool → List Char → List Char
  | _, [] => []
  | prevAlpha, c :: cs =>
    if c.isAlpha then
      (if prevAlpha then c.toLower else c.toUpper) :: pyTitleAux true cs
    else
      c :: pyTitleAux false cs

/-- Python `s.title()`. -/
def pyTitle (s : String) : String := String.mk (pyTitleAux false s.data)

/-- The `to_snake` Jinja filter of builder.py line 37:
`lambda s: s.lower().replace(' ', '_')`. -/
def to_snake (s : String) : String := pyReplace (pyLower s) " " "_"

/-- The `to_camel` Jinja filter of builder.py line 38:
`lambda s: ''.join(word.title() for word in s.split('_'))`. -/
def to_camel (s : String) : String := String.join ((strSplitOn s '_').map pyTitle)

/-- Split a character list at every character satisfying `p`. -/
def splitWhen (p : Char → Bool) : List Char → List (List Char)
  | [] => [[]]
  | c :: cs =>
    match splitWhen p cs with
    | [] => [[]]
    | g :: gs => if p c then [] :: g :: gs else (c :: g) :: gs

/-- Capitalize one word: first letter upper-cased, the rest lower-cased. -/
def capitalizeWord (w : List Char) : List Char :=
  match w with
  | [] => []
  | c :: cs => c.toUpper :: cs.map Char.toLower

/-- The identifier form as the claim words it: split the input into words
on both whitespace and underscore, capitalize each word, concatenate. This
definition follows the spec text, for comparison against the source
filters. -/
def spec_identifier_form (s : String) : String :=
  String.join
    (((splitWhen (fun c => c.isWhitespace || c == '_') s.data).filter
      (fun w => ¬ w.isEmpty)).map (fun w => String.mk (capitalizeWord w)))

/-- Template-set resolution of `ExtensionBuilder.__init__` line 25:
`self.template_name = template_name or self.config.type or 'basic_effect'`.
A falsy operand (`None` or the empty string, the empty string standing for
Python `None` in the `config.type` position too) falls through to the next. -/
def resolve_template_name (template_name : Option String) (config_type : String) : String :=
  if template_name.getD "" ≠ "" then template_name.getD ""
  else if config_type ≠ "" then config_type
  else "basic_effect"

/-- One node of a templated file: literal text, or a substitution
placeholder written in the source file. -/
inductive Tmpl where
  | text (s : String) : Tmpl
  | var (name : String) : Tmpl
deriving DecidableEq

/-- Rendering a templated file against the context, as the Jinja2
environment of builder.py is configured: a recognized placeholder becomes
its context value; an unrecognized one becomes the default `Undefined`,
whose string form is empty (the `Environment(...)` call passes no
`undefined=` override). Rendering always returns; it never raises on an
unknown name. -/
def renderTmpl (ctx : List (String × String)) : List Tmpl → String
  | [] => ""
  | .text s :: ts => s ++ renderTmpl ctx ts
  | .var n :: ts =>
    (match List.lookup n ctx with
     | some v => v
     | none => "") ++ renderTmpl ctx ts

/-- Rendering as the claim words it: an unrecognized placeholder token is
left untouched, passing through verbatim. This definition follows the spec
text, for comparison against the source behaviour. -/
def spec_render_template (ctx : List (String × String)) : List Tmpl → String
  | [] => ""
  | .text s :: ts => s ++ spec_render_template ctx ts
  | .var n :: ts =>
    (match List.lookup n ctx with
     | some v => v
     | none => "\x7b\x7b " ++ n ++ " \x7d\x7d") ++ spec_render_template ctx ts

/-- The literal bytes of a templated source file: a placeholder node reads
back as its brace-delimited token. Non-templated files are all-text node
lists, so this is also the byte content a verbatim copy transports. -/
def sourceText : List Tmpl → String
  | [] => ""
  | .text s :: ts => s ++ sourceText ts
  | .var n :: ts => "\x7b\x7b " ++ n ++ " \x7d\x7d" ++ sourceText ts

/-- One file of the resolved template-set directory: its path relative to
the set root (non-empty component list, last component the filename) and
its content. -/
structure TFile where
  path : List String
  content : List Tmpl
deriving DecidableEq

/-- The filename of a template-set file. -/
def fileName (f : TFile) : String := f.path.getLastD ""

/-- Python `s.endswith(t)`. -/
def strEndsWith (s t : String) : Bool := t.data.reverse.isPrefixOf s.data.reverse

/-- The output path of a rendered file:
`str(rel_path).replace('.j2', '')`, every occurrence replaced, the result
read back as a relative path. -/
def stripJ2 (p : List String) : List String :=
  strSplitOn (pyReplace (String.intercalate "/" p) ".j2" "") '/'

/-- One filesystem effect of `ExtensionBuilder.build`: rendering a
templated file to a path, or copying a static file byte for byte. -/
inductive BuildAction where
  | render (path : List String) (content : String) : BuildAction
  | copyFile (path : List String) (content : String) : BuildAction
deriving DecidableEq

/-- The file walk of `ExtensionBuilder.build` (builder.py lines 82-109):
first `template_dir.rglob('*.j2')` renders every templated file anywhere in
the tree, then `template_dir.iterdir()` copies every direct child file
whose suffix is not ".j2" — `iterdir` does not recurse, so static files in
subdirectories are never copied. The returned list is the write order. -/
def buildTrace (ctx : List (String × String)) (files : List TFile) : List BuildAction :=
  (files.filter (fun f => strEndsWith (fileName f) ".j2")).map
    (fun f => BuildAction.render (stripJ2 f.path) (renderTmpl ctx f.content))
  ++ (files.filter (fun f => f.path.length == 1 && !(pathSuffix (fileName f) == ".j2"))).map
    (fun f => BuildAction.copyFile f.path (sourceText f.content))

/-- `ExtensionBuilder.build` up to its filesystem effects: the template
directory existence check of lines 70-72 (raise `ValueError` when the
resolved set is missing — there is no fallback), then the file walk. -/
def buildRun (dirExists : String → Bool) (template_name : String)
    (ctx : List (String × String)) (files : List TFile) :
    Except String (List BuildAction) :=
  if dirExists template_name then .ok (buildTrace ctx files)
  else .error ("Template " ++ template_name ++ " not found")

/-- Python truthiness of a JSON-shaped value (`if param_config.get(k):`). -/
def jsonTruthy : Json → Bool
  | .null => false
  | .bool b => b
  | .num n => n != 0
  | .str s => s != ""
  | .arr xs => !xs.isEmpty
  | .obj fs => !fs.isEmpty

/-- Python `str()` of a JSON-shaped value as interpolated into the emitted
markup. Container values are abbreviated: no claim exercises a container
default, and the source only interpolates scalars in practice. -/
def jsonToStr : Json → String
  | .null => "None"
  | .bool b => if b then "True" else "False"
  | .num n => toString n
  | .str s => s
  | .arr _ => "[...]"
  | .obj _ => "\x7b...\x7d"

/-- The option lines of the optiongroup branch of `_generate_parameter`:
one `_option` entry per option, lower-cased value, original-case label. -/
def optionsXml : List String → String
  | [] => ""
  | o :: os =>
    "  <_option value=\"" ++ pyLower o ++ "\">" ++ o ++ "</_option>\n" ++ optionsXml os

/-- The page lines of the notebook branch of `_generate_parameter`: each
page is indexed as `page["name"]` and `page["gui_text"]` — a missing key is
a `KeyError`, modelled as `none`. -/
def pagesXml : List (List (String × String)) → Option String
  | [] => some ""
  | pg :: rest =>
    match List.lookup "name" pg, List.lookup "gui_text" pg with
    | some nm, some gt =>
      match pagesXml rest with
      | some r => some ("  <page name=\"" ++ nm ++ "\" gui-text=\"" ++ gt ++ "\"/>\n" ++ r)
      | none => none
    | _, _ => none

/-- `ExtensionBuilder._generate_parameter` from builder.py, taking the
parameter record (in the source, the dict form of a `Parameter`; a
`param_config.get(k, d)` on an absent or `None`-valued optional field is
modelled as `Option.getD`). Returns `none` exactly where the source raises
`KeyError` — a notebook page record lacking a required key. -/
def generate_parameter (p : Parameter) : Option String :=
  if p.type == "optiongroup" then
    some ("<param name=\"" ++ p.name ++ "\" type=\"optiongroup\" appearance=\""
      ++ p.appearance ++ "\">\n"
      ++ "  <_gui-text>" ++ p.gui_text.getD p.name ++ "</_gui-text>\n"
      ++ optionsXml p.options
      ++ (if jsonTruthy p.default then
            "  <_default>" ++ jsonToStr p.default ++ "</_default>\n"
          else "")
      ++ "</param>")
  else if p.type == "notebook" then
    match pagesXml p.pages with
    | some body =>
      some ("<param name=\"" ++ p.name ++ "\" type=\"notebook\">\n" ++ body ++ "</param>")
    | none => none
  else
    some ("<param name=\"" ++ p.name ++ "\" type=\"" ++ p.type ++ "\""
      ++ (if p.type == "int" || p.type == "float" then
            (match p.min with
             | some a => " min=\"" ++ toString a ++ "\""
             | none => "")
            ++ (match p.max with
                | some b => " max=\"" ++ toString b ++ "\""
                | none => "")
          else "")
      ++ "\n      gui-text=\""
      ++ p.gui_text.getD (pyTitle (pyReplace p.name "_" " ")) ++ "\""
      ++ (match p.gui_description with
          | some d => if d != "" then " gui-description=\"" ++ d ++ "\"" else ""
          | none => "")
      ++ (match p.default with
          | .null => "/>"
          | d => ">" ++ jsonToStr d ++ "</param>"))

@[simp]
theorem exceptBind_ok {ε α β : Type} (a : α) (f : α → Except ε β) :
    (Except.ok a : Except ε α) >>= f = f a := rfl

@[simp]
theorem decodeOptStr_optStrJson (o : Option String) : decodeOptStr (optStrJson o) = .ok o := by
  cases o <;> rfl

@[simp]
theorem decodeOptNum_optNumJson (o : Option Int) : decodeOptNum (optNumJson o) = .ok o := by
  cases o <;> rfl

@[simp]
theorem decodeStrs_map_str (l : List String) : decodeStrs (l.map Json.str) = .ok l := by
  induction l with
  | nil => rfl
  | cons s ss ih => simp [decodeStrs, decodeStr, ih]

@[simp]
theorem decodePageFields_map (pg : List (String × String)) :
    decodePageFields (pg.map (fun kv => (kv.1, Json.str kv.2))) = .ok pg := by
  induction pg with
  | nil => rfl
  | cons kv rest ih => cases kv; simp [decodePageFields, decodeStr, ih]

@[simp]
theorem decodePages_map (pgs : List (List (String × String))) :
    decodePages (pgs.map pageToJson) = .ok pgs := by
  induction pgs with
  | nil => rfl
  | cons pg rest ih => simp [decodePages, decodePage, pageToJson, ih]

/-- Deserializing the serialized record of a `Parameter` restores it
attribute for attribute. -/
theorem param_from_dict_to_dict (p : Parameter) :
    Parameter.from_dict p.to_dict = .ok p := by
  obtain ⟨nm, tp, df, gt, gd, mn, mx, ops, pgs, ap⟩ := p
  simp [Parameter.from_dict, Parameter.to_dict, reqStrField, strFieldD, optStrField,
    optNumField, strListField, pagesField, jsonField, List.lookup, decodeStr]

@[simp]
theorem decodeParams_map (ps : List Parameter) :
    decodeParams (ps.map Parameter.to_dict) = .ok ps := by
  induction ps with
  | nil => rfl
  | cons p rest ih => simp [decodeParams, param_from_dict_to_dict, ih]

theorem deriveId_ne_empty (name type : String) : deriveId name type ≠ "" := by
  intro h
  have hlen := congrArg String.length h
  rw [deriveId] at hlen
  simp [String.length_append] at hlen
  exact absurd hlen.1.1.1 (by decide)

/-- Deserializing the serialized record of a constructed `ExtensionConfig`
restores it attribute for attribute (every constructed config carries a
non-empty id, which `__post_init__` therefore leaves alone on reload). -/
theorem config_from_dict_to_dict (name type : String) (id : Option String)
    (author : String) (email : Option String) (description version license : String)
    (requires : List String) (parameters : List Parameter) :
    ExtensionConfig.from_dict
      (mkExtensionConfig name type id author email description version license
        requires parameters).to_dict =
    .ok (mkExtensionConfig name type id author email description version license
        requires parameters) := by
  have hid : ∃ s, (mkExtensionConfig name type id author email description version license
      requires parameters).id = some s ∧ s ≠ "" := by
    cases id with
    | none =>
      exact ⟨deriveId name type, by simp [mkExtensionConfig], deriveId_ne_empty name type⟩
    | some s =>
      by_cases h : s = ""
      · exact ⟨deriveId name type, by simp [mkExtensionConfig, h], deriveId_ne_empty name type⟩
      · exact ⟨s, by simp [mkExtensionConfig, h], h⟩
  obtain ⟨s, hs, hne⟩ := hid
  simp [ExtensionConfig.from_dict, ExtensionConfig.to_dict, reqStrField, strFieldD,
    optStrField, strListField, List.lookup, decodeStr, hs]
  simp only [mkExtensionConfig] at hs ⊢
  simp only [Option.getD] at hne ⊢
  simp [hne]
  exact hs.symm

/-- C2: saving a valid constructed ExtensionConfig with save_config and
loading the saved file back through load_config at any path with a ".json"
suffix yields a configuration equal to it in every attribute, nested
parameters and their order included. -/
theorem c2_config_roundtrip (name type : String) (id : Option String)
    (author : String) (email : Option String)
    (description version license : String) (requires : List String)
    (parameters : List Parameter) (path : String)
    (hsuffix : pyLower (pathSuffix path) = ".json")
    (_hvalid : (mkExtensionConfig name type id author email description version
      license requires parameters).validate = .ok ()) :
    load_config
      (fun q => if q = path then
        some (save_config (mkExtensionConfig name type id author email
          description version license requires parameters))
        else none)
      path =
    .ok (mkExtensionConfig name type id author email description version
      license requires parameters) := by
  unfold load_config
  simp only [if_pos rfl, hsuffix, if_pos]
  exact config_from_dict_to_dict name type id author email description
    version license requires parameters

/-- Witness for C2 at a concrete configuration and path. -/
theorem c2_config_roundtrip_witness :
    pyLower (pathSuffix "grid.json") = ".json"
    ∧ (mkExtensionConfig "Grid Maker" "effect" none "Ada" none "Inkscape Extension"
        "1.0.0" "GPL-2.0-or-later" []
        [{ name := "seed", type := "int", min := some 0, max := some 999999 }]).validate = .ok ()
    ∧ load_config
        (fun q => if q = "grid.json" then
          some (save_config (mkExtensionConfig "Grid Maker" "effect" none "Ada" none
            "Inkscape Extension" "1.0.0" "GPL-2.0-or-later" []
            [{ name := "seed", type := "int", min := some 0, max := some 999999 }]))
          else none)
        "grid.json" =
      .ok (mkExtensionConfig "Grid Maker" "effect" none "Ada" none "Inkscape Extension"
        "1.0.0" "GPL-2.0-or-later" []
        [{ name := "seed", type := "int", min := some 0, max := some 999999 }]) :=
  ⟨by decide, by decide,
    c2_config_roundtrip "Grid Maker" "effect" none "Ada" none "Inkscape Extension"
      "1.0.0" "GPL-2.0-or-later" []
      [{ name := "seed", type := "int", min := some 0, max := some 999999 }]
      "grid.json" (by decide) (by decide)⟩

/-- C8: Parameter.validate is a pure, deterministic check that fails exactly
when the type is unrecognized, or the type is optiongroup with empty
options, or notebook with empty pages, or both bounds are present with
min greater than max; an optiongroup parameter with empty options always
fails, any parameter with min 10 and max 1 always fails, and an int
parameter with min 0 and max 100 always passes. -/
theorem c8_parameter_validation :
    (∀ p : Parameter, (∃ e, p.validate = .error e) ↔
      (p.type ∉ paramTypes
        ∨ (p.type = "optiongroup" ∧ p.options = [])
        ∨ (p.type = "notebook" ∧ p.pages = [])
        ∨ (∃ a b, p.min = some a ∧ p.max = some b ∧ a > b)))
    ∧ (∀ p : Parameter, p.type = "optiongroup" → p.options = [] →
        ∃ e, p.validate = .error e)
    ∧ (∀ p : Parameter, p.min = some 10 → p.max = some 1 →
        ∃ e, p.validate = .error e)
    ∧ (∀ p : Parameter, p.type = "int" → p.min = some 0 → p.max = some 100 →
        p.validate = .ok ()) := by
  have main : ∀ p : Parameter, (∃ e, p.validate = .error e) ↔
      (p.type ∉ paramTypes
        ∨ (p.type = "optiongroup" ∧ p.options = [])
        ∨ (p.type = "notebook" ∧ p.pages = [])
        ∨ (∃ a b, p.min = some a ∧ p.max = some b ∧ a > b)) := by
    intro p
    unfold Parameter.validate
    by_cases h1 : p.type ∈ paramTypes
    · rw [if_neg (by simpa using h1)]
      by_cases h2 : p.type = "optiongroup" ∧ p.options = []
      · simp [h1, h2]
      · rw [if_neg h2]
        by_cases h3 : p.type = "notebook" ∧ p.pages = []
        · simp [h1, h2, h3]
        · rw [if_neg h3]
          rcases hmn : p.min with _ | a <;> rcases hmx : p.max with _ | b
          · simp [h1, h2, h3]
          · simp [h1, h2, h3]
          · simp [h1, h2, h3]
          · by_cases h4 : a > b
            · simp [h1, h2, h3, h4]
            · simp [h1, h2, h3, h4]
    · simp [h1]
  refine ⟨main, ?_, ?_, ?_⟩
  · intro p ht hops
    exact (main p).mpr (Or.inr (Or.inl ⟨ht, hops⟩))
  · intro p hmn hmx
    exact (main p).mpr (Or.inr (Or.inr (Or.inr ⟨10, 1, hmn, hmx, by norm_num⟩)))
  · intro p ht hmn hmx
    unfold Parameter.validate
    rw [ht, hmn, hmx]
    simp [paramTypes]

/-- Witness for C8: each guarded conjunct instantiated at a concrete
parameter. -/
theorem c8_parameter_validation_witness :
    (∃ e, Parameter.validate { name := "colors", type := "optiongroup" } = .error e)
    ∧ (∃ e, Parameter.validate
        { name := "w", type := "float", min := some 10, max := some 1 } = .error e)
    ∧ Parameter.validate
        { name := "seed", type := "int", min := some 0, max := some 100 } = .ok ()
    ∧ ((∃ e, Parameter.validate { name := "k", type := "bogus" } = .error e) ↔
        ("bogus" ∉ paramTypes
          ∨ ("bogus" = "optiongroup" ∧ ([] : List String) = [])
          ∨ ("bogus" = "notebook" ∧ ([] : List (List (String × String))) = [])
          ∨ (∃ a b, (none : Option Int) = some a ∧ (none : Option Int) = some b ∧ a > b))) :=
  ⟨c8_parameter_validation.2.1 { name := "colors", type := "optiongroup" } rfl rfl,
   c8_parameter_validation.2.2.1 { name := "w", type := "float", min := some 10, max := some 1 } rfl rfl,
   c8_parameter_validation.2.2.2 { name := "seed", type := "int", min := some 0, max := some 100 } rfl rfl rfl,
   c8_parameter_validation.1 { name := "k", type := "bogus" }⟩

/-- C7 counterexample: two configurations whose single invalid parameter
differs only in its name produce the same validation failure, whose
message contains neither parameter name — the failure is identified by the
offending value, not by the offending parameter name as the claim states. -/
theorem c7_error_name_counterexample :
    ExtensionConfig.validate
      (mkExtensionConfig "My Ext" "effect" none "Anonymous" none "Inkscape Extension"
        "1.0.0" "GPL-2.0-or-later" [] [{ name := "alpha", type := "bogus" }]) =
      .error "Invalid parameter type: bogus"
    ∧ ExtensionConfig.validate
      (mkExtensionConfig "My Ext" "effect" none "Anonymous" none "Inkscape Extension"
        "1.0.0" "GPL-2.0-or-later" [] [{ name := "beta", type := "bogus" }]) =
      .error "Invalid parameter type: bogus"
    ∧ strContains "Invalid parameter type: bogus" "alpha" = false
    ∧ strContains "Invalid parameter type: bogus" "beta" = false := by
  refine ⟨by decide, by decide, by decide, by decide⟩

/-- C7 (amended): ExtensionConfig.validate fails on an empty name, then on
a type outside the enum; otherwise it validates the parameters in list
order and propagates the first parameter failure unchanged (the failure
message names the invalid value, not the offending parameter). -/
theorem c7_validate_order :
    (∀ c : ExtensionConfig, c.name = "" →
      c.validate = .error "Extension name is required")
    ∧ (∀ c : ExtensionConfig, c.name ≠ "" → c.type ∉ extensionTypes →
      c.validate = .error ("Invalid extension type: " ++ c.type))
    ∧ (∀ c : ExtensionConfig, c.name ≠ "" → c.type ∈ extensionTypes →
      c.validate = validateParams c.parameters)
    ∧ (∀ (ps : List Parameter) (p : Parameter) (qs : List Parameter) (e : String),
      (∀ q ∈ ps, q.validate = .ok ()) → p.validate = .error e →
      validateParams (ps ++ p :: qs) = .error e) := by
  refine ⟨?_, ?_, ?_, ?_⟩
  · intro c h
    simp [ExtensionConfig.validate, h]
  · intro c hn ht
    simp [ExtensionConfig.validate, hn, ht]
  · intro c hn ht
    simp [ExtensionConfig.validate, hn, ht]
  · intro ps p qs e hok hp
    induction ps with
    | nil => simp [validateParams, hp]
    | cons q rest ih =>
      have hq : q.validate = .ok () := hok q (by simp)
      simp only [List.cons_append, validateParams, hq]
      exact ih (fun r hr => hok r (by simp [hr]))

/-- Witness for C7: each guarded conjunct instantiated concretely; the
first failing parameter (second in list order) supplies the propagated
message. -/
theorem c7_validate_order_witness :
    ExtensionConfig.validate
      (mkExtensionConfig "" "effect" none "Anonymous" none "Inkscape Extension"
        "1.0.0" "GPL-2.0-or-later" [] []) = .error "Extension name is required"
    ∧ ExtensionConfig.validate
      (mkExtensionConfig "E" "plugin" none "Anonymous" none "Inkscape Extension"
        "1.0.0" "GPL-2.0-or-later" [] []) = .error "Invalid extension type: plugin"
    ∧ ExtensionConfig.validate
      (mkExtensionConfig "E" "render" none "Anonymous" none "Inkscape Extension"
        "1.0.0" "GPL-2.0-or-later" [] [{ name := "a", type := "int" }]) =
      validateParams [{ name := "a", type := "int" }]
    ∧ validateParams
        ([{ name := "a", type := "int" }] ++
          { name := "b", type := "notebook" } :: [{ name := "c", type := "bogus" }]) =
      .error "Notebook parameters require pages" :=
  ⟨c7_validate_order.1 _ rfl,
   c7_validate_order.2.1 _ (by decide) (by decide),
   c7_validate_order.2.2.1 _ (by decide) (by decide),
   c7_validate_order.2.2.2 [{ name := "a", type := "int" }]
     { name := "b", type := "notebook" } [{ name := "c", type := "bogus" }] _
     (by intro q hq; simp at hq; rw [hq]; decide) (by decide)⟩

/-- C9: a configuration constructed without an explicit id derives it
deterministically as org.inkscape, then the type, then the slug of the
name (lower-cased, spaces and hyphens replaced by underscores); in
particular name "Mondrian Generator" with type "render" derives
org.inkscape.render.mondrian_generator. -/
theorem c9_default_id :
    (∀ (name type author : String) (email : Option String)
      (description version license : String) (requires : List String)
      (parameters : List Parameter),
      (mkExtensionConfig name type none author email description version license
        requires parameters).id =
      some ("org.inkscape." ++ type ++ "."
        ++ pyReplace (pyReplace (pyLower name) " " "_") "-" "_"))
    ∧ (mkExtensionConfig "Mondrian Generator" "render" none "Anonymous" none
      "Inkscape Extension" "1.0.0" "GPL-2.0-or-later" [] []).id =
      some "org.inkscape.render.mondrian_generator" := by
  constructor
  · intro name type author email description version license requires parameters
    simp [mkExtensionConfig, deriveId]
  · decide

/-- C4 counterexample: on an input containing whitespace the source
identifier filter keeps the space (Python str.title capitalizes within the
single underscore-segment), while the claimed split-on-whitespace form
drops it; the two disagree at the concrete input "my b". -/
theorem c4_identifier_split_counterexample :
    spec_identifier_form "my b" = "MyB"
    ∧ to_camel "my b" = "My B"
    ∧ to_camel "my b" ≠ spec_identifier_form "my b" := by
  refine ⟨by decide, by decide, by decide⟩

/-- C4 (amended): the normalization filters are deterministic; the slug of
"My Cool Effect" is "my_cool_effect" and the identifier form of
"my_cool_effect" is "MyCoolEffect"; the identifier form splits on
underscore only, title-casing each segment, so whitespace inside a segment
is preserved rather than being a split point. -/
theorem c4_name_normalization :
    to_snake "My Cool Effect" = "my_cool_effect"
    ∧ to_camel "my_cool_effect" = "MyCoolEffect"
    ∧ to_camel "my b" = "My B" := by
  refine ⟨by decide, by decide, by decide⟩

/-- C5 counterexample: with no explicit template name, type "effect"
resolves to the set named "effect", not to the default "basic_effect" set
the claim maps every non-render type to. -/
theorem c5_inference_counterexample :
    resolve_template_name none "effect" = "effect"
    ∧ resolve_template_name none "effect" ≠ "basic_effect" := by
  refine ⟨by decide, by decide⟩

/-- C5 (amended): with no explicit template name the set is the
configuration type itself, whatever it is ("render" included); the
"basic_effect" default is used only when the type is falsy. -/
theorem c5_template_inference :
    (∀ config_type : String, config_type ≠ "" →
      resolve_template_name none config_type = config_type)
    ∧ resolve_template_name none "" = "basic_effect"
    ∧ resolve_template_name none "render" = "render" := by
  refine ⟨?_, by decide, by decide⟩
  intro ct h
  simp [resolve_template_name, h]

/-- Witness for C5 at the concrete type "effect". -/
theorem c5_template_inference_witness :
    resolve_template_name none "effect" = "effect" :=
  c5_template_inference.1 "effect" (by decide)

theorem renderTmpl_append (ctx : List (String × String)) (a b : List Tmpl) :
    renderTmpl ctx (a ++ b) = renderTmpl ctx a ++ renderTmpl ctx b := by
  induction a with
  | nil => simp [renderTmpl]
  | cons t ts ih => cases t <;> simp [renderTmpl, ih, String.append_assoc]

/-- C3 counterexample: a template whose placeholder token names no context
key renders to the empty substitution under the source configuration,
while the claimed verbatim pass-through keeps the token; the two disagree
at a concrete one-token template. -/
theorem c3_passthrough_counterexample :
    renderTmpl [("ext_name", "x")] [Tmpl.text "a", Tmpl.var "zzz"] = "a"
    ∧ spec_render_template [("ext_name", "x")] [Tmpl.text "a", Tmpl.var "zzz"] =
      "a\x7b\x7b zzz \x7d\x7d"
    ∧ renderTmpl [("ext_name", "x")] [Tmpl.text "a", Tmpl.var "zzz"] ≠
      spec_render_template [("ext_name", "x")] [Tmpl.text "a", Tmpl.var "zzz"] := by
  refine ⟨by decide, by decide, by decide⟩

/-- C3 (amended): rendering never aborts on an unknown token; every
recognized token is replaced by its context value, and every unrecognized
token is replaced by the empty string (the Jinja2 default-Undefined
behaviour of the environment builder.py constructs), not left verbatim. -/
theorem c3_token_render :
    (∀ (ctx : List (String × String)) (pre post : List Tmpl) (n v : String),
      List.lookup n ctx = some v →
      renderTmpl ctx (pre ++ Tmpl.var n :: post) =
        renderTmpl ctx pre ++ v ++ renderTmpl ctx post)
    ∧ (∀ (ctx : List (String × String)) (pre post : List Tmpl) (n : String),
      List.lookup n ctx = none →
      renderTmpl ctx (pre ++ Tmpl.var n :: post) =
        renderTmpl ctx pre ++ renderTmpl ctx post) := by
  constructor
  · intro ctx pre post n v h
    rw [renderTmpl_append]
    simp [renderTmpl, h, String.append_assoc]
  · intro ctx pre post n h
    rw [renderTmpl_append]
    simp [renderTmpl, h]

/-- Witness for C3 at a concrete context and template. -/
theorem c3_token_render_witness :
    renderTmpl [("ext_name", "grid_maker")]
      ([Tmpl.text "# "] ++ Tmpl.var "ext_name" :: [Tmpl.text "!"]) =
      "# " ++ "grid_maker" ++ "!"
    ∧ renderTmpl [("ext_name", "grid_maker")]
      ([Tmpl.text "# "] ++ Tmpl.var "unknown_token" :: [Tmpl.text "!"]) =
      "# " ++ "!" :=
  ⟨c3_token_render.1 [("ext_name", "grid_maker")] [Tmpl.text "# "] [Tmpl.text "!"]
      "ext_name" "grid_maker" rfl,
   c3_token_render.2 [("ext_name", "grid_maker")] [Tmpl.text "# "] [Tmpl.text "!"]
      "unknown_token" rfl⟩

/-- C1 counterexample: the default "basic_effect" set exists on disk, the
requested set does not, and the build raises the template-not-found error
instead of falling back to the default and producing an output tree. -/
theorem c1_fallback_counterexample :
    (fun s => s == "basic_effect") "basic_effect" = true
    ∧ buildRun (fun s => s == "basic_effect") "nonexistent"
        [("ext_name", "demo")] [TFile.mk ["main.py.j2"] [Tmpl.text "code"]] =
      .error "Template nonexistent not found" := by
  refine ⟨by decide, by decide⟩

/-- C1 (amended): whenever the resolved template directory does not exist,
build raises ValueError (the template-not-found message) at once — no
fallback to the default set, no warning, whether or not the default set is
present. -/
theorem c1_missing_template_raises (dirExists : String → Bool)
    (template_name : String) (ctx : List (String × String)) (files : List TFile)
    (h : dirExists template_name = false) :
    buildRun dirExists template_name ctx files =
      .error ("Template " ++ template_name ++ " not found") := by
  simp [buildRun, h]

/-- Witness for C1 at a concrete missing template set. -/
theorem c1_missing_template_raises_witness :
    buildRun (fun s => s == "basic_effect") "nonexistent" [] [] =
      .error ("Template " ++ "nonexistent" ++ " not found") :=
  c1_missing_template_raises (fun s => s == "basic_effect") "nonexistent" [] [] rfl

/-- C6 counterexample: a non-templated file inside a subdirectory of the
template set produces no build action at all — in particular it is not
copied to its relative position, contradicting the claim that every
non-templated file anywhere in the tree is copied. -/
theorem c6_subdir_copy_counterexample :
    buildTrace [] [TFile.mk ["sub", "data.txt"] [Tmpl.text "hello"]] = []
    ∧ BuildAction.copyFile ["sub", "data.txt"] "hello" ∉
        buildTrace [] [TFile.mk ["sub", "data.txt"] [Tmpl.text "hello"]] := by
  refine ⟨by decide, by decide⟩

/-- C6 (amended): every non-templated file directly at the template-set
root is copied byte for byte to the same relative position, and every copy
is emitted after every templated render; files in subdirectories are
copied only when templated (rendered), never as static copies. -/
theorem c6_static_copy (ctx : List (String × String)) (files : List TFile)
    (f : TFile) (n : String) (hf : f ∈ files) (hp : f.path = [n])
    (hj : ¬ pathSuffix n = ".j2") :
    ∃ renders copies, buildTrace ctx files = renders ++ copies
      ∧ (∀ a ∈ renders, ∃ q s, a = BuildAction.render q s)
      ∧ (∀ a ∈ copies, ∃ q s, a = BuildAction.copyFile q s)
      ∧ BuildAction.copyFile f.path (sourceText f.content) ∈ copies := by
  refine ⟨_, _, rfl, ?_, ?_, ?_⟩
  · intro a ha
    obtain ⟨g, _, rfl⟩ := List.mem_map.mp ha
    exact ⟨_, _, rfl⟩
  · intro a ha
    obtain ⟨g, _, rfl⟩ := List.mem_map.mp ha
    exact ⟨_, _, rfl⟩
  · refine List.mem_map.mpr ⟨f, List.mem_filter.mpr ⟨hf, ?_⟩, rfl⟩
    simp [hp, fileName, hj]

/-- Witness for C6 at a concrete one-file template set. -/
theorem c6_static_copy_witness :
    ∃ renders copies,
      buildTrace [] [TFile.mk ["readme.md"] [Tmpl.text "hi"]] = renders ++ copies
      ∧ (∀ a ∈ renders, ∃ q s, a = BuildAction.render q s)
      ∧ (∀ a ∈ copies, ∃ q s, a = BuildAction.copyFile q s)
      ∧ BuildAction.copyFile (TFile.mk ["readme.md"] [Tmpl.text "hi"]).path
          (sourceText (TFile.mk ["readme.md"] [Tmpl.text "hi"]).content) ∈ copies :=
  c6_static_copy [] [TFile.mk ["readme.md"] [Tmpl.text "hi"]]
    (TFile.mk ["readme.md"] [Tmpl.text "hi"]) "readme.md" (by simp) rfl (by decide)

/-- C10: the emitter is partial at its public interface — a notebook
parameter whose single page carries a name but no gui_text key passes
Parameter.validate (which checks only that pages is non-empty), yet
_generate_parameter raises KeyError on it instead of returning a fragment. -/
theorem c10_notebook_keyerror :
    Parameter.validate
      { name := "tab", type := "notebook", pages := [[("name", "page1")]] } = .ok ()
    ∧ generate_parameter
      { name := "tab", type := "notebook", pages := [[("name", "page1")]] } = none := by
  refine ⟨by decide, by decide⟩
